import Mathlib

/-!
Verification development for the desktop application shell in
`src/src-tauri/src/main.rs`: the update-coordinator flow
(`check_for_updates`), the server-launch command resolution
(`start_server`, `start_production_server`, `start_development_server`,
`find_dev_cli_path`) and the child-process event relay
(`handle_command_event`).

The Rust functions are shallowly embedded as pure Lean functions:

* the update flow becomes a function from its three external inputs
  (the result of `app.updater().check()`, the boolean answer of the
  blocking confirmation dialog, and the result of
  `update.download_and_install`) to the ordered list of observable
  effects the Rust code performs (log lines, dialogs, the
  download-and-install call, the restart call);
* the filesystem is abstracted as a predicate `fs : String → Bool`
  telling which paths exist (the only filesystem query the launcher
  code makes is `Path::exists`), and command resolution returns the
  constructed command specification (executable, arguments,
  environment) instead of spawning;
* `String::from_utf8` is embedded as an executable UTF-8 decoder over
  byte lists (`from_utf8`), following the standard UTF-8 validity
  rules Rust enforces (continuation ranges, no overlong forms, no
  surrogates, max U+10FFFF).
-/

namespace ClaudeConfig

/-! ## Update flow (`check_for_updates`, main.rs lines 38-93) -/

/-- Result of `app.updater().check().await`:
`Ok(Some(update))` with a version and optional release-notes body,
`Ok(None)`, or `Err(e)`. -/
inductive CheckResult
  | found (version : String) (body : Option String)
  | noUpdate
  | checkError (msg : String)
deriving DecidableEq

/-- Result of `update.download_and_install(...).await`. -/
inductive InstallResult
  | ok
  | err (msg : String)
deriving DecidableEq

/-- `MessageDialogKind` of a shown dialog. -/
inductive DialogKind
  | info
  | error
deriving DecidableEq

/-- One observable effect of the update flow, in program order:
stdout log line (`println!`), stderr log line (`eprintln!`), the
blocking two-button confirmation dialog (title, message, ok-button
label, cancel-button label), a plain blocking message dialog
(kind, title, message), the `download_and_install` call, and the
`app.restart()` call. -/
inductive Effect
  | logInfo (s : String)
  | logError (s : String)
  | promptDialog (title message okLabel cancelLabel : String)
  | showDialog (kind : DialogKind) (title message : String)
  | downloadAndInstall
  | restart
deriving DecidableEq

/-- The message of the confirmation dialog, from the `format!` string in
main.rs lines 50-54: the version and the first 200 characters of the
release notes (`body.chars().take(200)`). -/
def promptMessage (version notes : String) : String :=
  "A new version (" ++ version ++ ") is available!\n\n" ++ notes.take 200 ++
    "\n\nWould you like to download and install it?"

/-- Embedding of `check_for_updates` (main.rs lines 38-93) as the list
of effects it performs, given the check result, the user's answer to
the confirmation dialog (`should_update`), and the install result. -/
def check_for_updates (check : CheckResult) (should_update : Bool)
    (install : InstallResult) : List Effect :=
  match check with
  | .found version body =>
    let bodyStr := body.getD ""
    Effect.promptDialog "Update Available" (promptMessage version bodyStr)
        "Update" "Later" ::
      (if should_update then
        Effect.logInfo ("User accepted update to " ++ version) ::
        Effect.downloadAndInstall ::
        (match install with
         | .ok =>
           [Effect.showDialog .info "Update Complete"
              "Update installed! The app will now restart.",
            Effect.restart]
         | .err e =>
           [Effect.logError ("Failed to install update: " ++ e),
            Effect.showDialog .error "Update Failed"
              ("Failed to install update: " ++ e ++
                "\n\nPlease download manually from GitHub.")])
      else [])
  | .noUpdate => [Effect.logInfo "No updates available"]
  | .checkError e =>
    [Effect.logError ("Failed to check for updates: " ++ e)]

/-- Is this effect the `app.restart()` call? -/
def Effect.isRestart : Effect → Bool
  | .restart => true
  | _ => false

/-- Is this effect the `download_and_install` call? -/
def Effect.isDownload : Effect → Bool
  | .downloadAndInstall => true
  | _ => false

/-- Is this effect a user-visible dialog (confirmation or message)? -/
def Effect.isDialog : Effect → Bool
  | .promptDialog _ _ _ _ => true
  | .showDialog _ _ _ => true
  | _ => false

/-! ## Launcher (`start_server` and helpers, main.rs lines 95-143, 177-193) -/

/-- The executable of a constructed command: a bundled sidecar
(`app.shell().sidecar(name)`) or a system executable looked up on the
search path (`shell.command(name)`). -/
inductive Executable
  | sidecar (name : String)
  | system (name : String)
deriving DecidableEq

/-- A constructed command specification: executable, ordered argument
list, and environment variables set on the command. -/
structure CommandSpec where
  exe : Executable
  args : List String
  env : List (String × String)
deriving DecidableEq

/-- `Path::join` of a directory and one component. -/
def pathJoin (p c : String) : String := p ++ "/" ++ c

/-- Embedding of `start_production_server` (main.rs lines 110-124):
the bundled `node-server` sidecar, the `cli.js` script inside the
server directory as first argument, the fixed arguments, and
`NODE_PATH` pointing at the bundled `node_modules`. -/
def start_production_server (server_dir : String) : CommandSpec :=
  { exe := .sidecar "node-server",
    args := [pathJoin server_dir "cli.js", "ui", "--foreground", "--port",
             "3333"],
    env := [("NODE_PATH", pathJoin server_dir "node_modules")] }

/-- Embedding of `find_dev_cli_path` (main.rs lines 177-193): probe the
fixed ordered candidate list and return the first existing path,
defaulting to `../cli.js`. -/
def find_dev_cli_path (fs : String → Bool) : String :=
  let possible_paths := ["../cli.js", "../../cli.js", "cli.js"]
  match possible_paths.find? fs with
  | some p => p
  | none => "../cli.js"

/-- Embedding of `start_development_server` (main.rs lines 136-143):
the system `node` executable with the probed `cli.js` path and the
fixed arguments; no environment variable is set. -/
def start_development_server (fs : String → Bool) : CommandSpec :=
  { exe := .system "node",
    args := [find_dev_cli_path fs, "ui", "--foreground", "--port", "3333"],
    env := [] }

/-- Embedding of `start_server` (main.rs lines 95-108): production mode
when the `server` subdirectory of the resource directory exists,
development mode otherwise. -/
def start_server (fs : String → Bool) (resource_dir : String) : CommandSpec :=
  let server_dir := pathJoin resource_dir "server"
  if fs server_dir then start_production_server server_dir
  else start_development_server fs

/-! ## Event relay (`handle_command_event`, main.rs lines 155-175) -/

/-- Is `b` a UTF-8 continuation byte (`0x80..=0xBF`)? -/
def isCont (b : Nat) : Bool := 0x80 ≤ b && b ≤ 0xBF

/-- Decode a byte list as UTF-8 into a character list, `none` on any
invalid sequence. Implements the standard validity rules that Rust's
`String::from_utf8` enforces: continuation-byte ranges, no overlong
encodings, no surrogate code points, nothing above U+10FFFF. -/
def utf8Decode : List Nat → Option (List Char)
  | [] => some []
  | b0 :: bs =>
    if b0 ≤ 0x7F then
      (utf8Decode bs).map (fun cs => Char.ofNat b0 :: cs)
    else if 0xC2 ≤ b0 && b0 ≤ 0xDF then
      match bs with
      | b1 :: bs1 =>
        if isCont b1 then
          (utf8Decode bs1).map
            (fun cs => Char.ofNat ((b0 - 0xC0) * 0x40 + (b1 - 0x80)) :: cs)
        else none
      | [] => none
    else if 0xE0 ≤ b0 && b0 ≤ 0xEF then
      match bs with
      | b1 :: b2 :: bs1 =>
        let lo1 := if b0 == 0xE0 then 0xA0 else 0x80
        let hi1 := if b0 == 0xED then 0x9F else 0xBF
        if lo1 ≤ b1 && b1 ≤ hi1 && isCont b2 then
          (utf8Decode bs1).map
            (fun cs =>
              Char.ofNat
                ((b0 - 0xE0) * 0x1000 + (b1 - 0x80) * 0x40 + (b2 - 0x80)) ::
                cs)
        else none
      | _ => none
    else if 0xF0 ≤ b0 && b0 ≤ 0xF4 then
      match bs with
      | b1 :: b2 :: b3 :: bs1 =>
        let lo1 := if b0 == 0xF0 then 0x90 else 0x80
        let hi1 := if b0 == 0xF4 then 0x8F else 0xBF
        if lo1 ≤ b1 && b1 ≤ hi1 && isCont b2 && isCont b3 then
          (utf8Decode bs1).map
            (fun cs =>
              Char.ofNat
                ((b0 - 0xF0) * 0x40000 + (b1 - 0x80) * 0x1000 +
                  (b2 - 0x80) * 0x40 + (b3 - 0x80)) ::
                cs)
        else none
      | _ => none
    else none

/-- Embedding of Rust's `String::from_utf8` over a byte list. -/
def from_utf8 (bs : List Nat) : Option String :=
  (utf8Decode bs).map (fun cs => String.mk cs)

/-- The exit status carried by a `Terminated` event: the tauri shell
plugin's `TerminatedPayload` with optional exit code and signal. -/
structure TerminatedPayload where
  code : Option Int
  signal : Option Int
deriving DecidableEq

/-- Rust `Debug` rendering of an `Option<i32>`. -/
def formatOptInt : Option Int → String
  | none => "None"
  | some n => "Some(" ++ toString n ++ ")"

/-- Rust `Debug` rendering (`{:?}`) of a `TerminatedPayload`. -/
def formatStatus (st : TerminatedPayload) : String :=
  "TerminatedPayload \x7b code: " ++ formatOptInt st.code ++ ", signal: " ++
    formatOptInt st.signal ++ " \x7d"

/-- A child-process event as received by the relay loop: stdout/stderr
lines carry raw bytes; the enum is non-exhaustive in the plugin, which
the code handles with a wildcard arm, modelled by `other`. -/
inductive CommandEvent
  | stdout (line : List Nat)
  | stderr (line : List Nat)
  | error (msg : String)
  | terminated (status : TerminatedPayload)
  | other
deriving DecidableEq

/-- One log line produced by the relay: informational (`println!`) or
error (`eprintln!`). -/
inductive LogLine
  | info (s : String)
  | error (s : String)
deriving DecidableEq

/-- Embedding of `handle_command_event` (main.rs lines 155-175) as the
list of log lines it emits for one event: decodable stdout/stderr
lines are relayed with the `[server]` marker, undecodable lines emit
nothing (the `if let Ok(s)` silently drops the `Err` case), spawn
errors go to the error log, and termination is reported with its
status. -/
def handle_command_event : CommandEvent → List LogLine
  | .stdout line =>
    match from_utf8 line with
    | some s => [.info ("[server] " ++ s)]
    | none => []
  | .stderr line =>
    match from_utf8 line with
    | some s => [.error ("[server] " ++ s)]
    | none => []
  | .error e => [.error ("[server error] " ++ e)]
  | .terminated status =>
    [.info ("[server] terminated with status: " ++ formatStatus status)]
  | .other => []

/-- The relay loop (main.rs lines 127-132 / 146-151): every received
event is handled in order until the channel closes. -/
def relay (events : List CommandEvent) : List LogLine :=
  (events.map handle_command_event).flatten

/-! ## Theorems about the update flow -/

/-- C1: in every update-flow run where the check reports an update, the
user accepts, and download-and-install succeeds, the restart action is
invoked exactly once, and only after the success dialog ("Update
installed! The app will now restart.") has been shown: the effect
trace ends with the success dialog immediately followed by the restart
and contains no restart before that point. -/
theorem restart_once_after_success_dialog (v : String) (b : Option String) :
    (check_for_updates (.found v b) true .ok).countP Effect.isRestart = 1 ∧
    ∃ pre,
      check_for_updates (.found v b) true .ok =
        pre ++ [Effect.showDialog .info "Update Complete"
                  "Update installed! The app will now restart.",
                Effect.restart] ∧
      pre.countP Effect.isRestart = 0 := by
  refine ⟨?_,
    ⟨[Effect.promptDialog "Update Available" (promptMessage v (b.getD ""))
        "Update" "Later",
      Effect.logInfo ("User accepted update to " ++ v),
      Effect.downloadAndInstall], ?_, ?_⟩⟩ <;>
    simp [check_for_updates, List.countP_cons, Effect.isRestart]

/-- C2: in every update-flow run where the check reports an update and
the user declines, the trace is exactly the confirmation prompt: the
download-and-install action is never invoked and no restart occurs,
whatever the (never consulted) install result would have been. -/
theorem decline_never_installs (v : String) (b : Option String)
    (install : InstallResult) :
    check_for_updates (.found v b) false install =
      [Effect.promptDialog "Update Available" (promptMessage v (b.getD ""))
        "Update" "Later"] ∧
    (check_for_updates (.found v b) false install).countP
      Effect.isDownload = 0 ∧
    (check_for_updates (.found v b) false install).countP
      Effect.isRestart = 0 := by
  refine ⟨?_, ?_, ?_⟩ <;>
    simp [check_for_updates, List.countP_cons, Effect.isDownload,
      Effect.isRestart]

/-- C3: in every update-flow run where the user accepts but
download-and-install fails, the error is logged, an error dialog
instructing manual download is shown, no restart is invoked, and
download-and-install is attempted exactly once (no retry). -/
theorem install_failure_dialog_no_restart (v : String) (b : Option String)
    (e : String) :
    Effect.logError ("Failed to install update: " ++ e) ∈
      check_for_updates (.found v b) true (.err e) ∧
    Effect.showDialog .error "Update Failed"
        ("Failed to install update: " ++ e ++
          "\n\nPlease download manually from GitHub.") ∈
      check_for_updates (.found v b) true (.err e) ∧
    (check_for_updates (.found v b) true (.err e)).countP
      Effect.isRestart = 0 ∧
    (check_for_updates (.found v b) true (.err e)).countP
      Effect.isDownload = 1 := by
  refine ⟨?_, ?_, ?_, ?_⟩ <;>
    simp [check_for_updates, List.countP_cons, Effect.isRestart,
      Effect.isDownload]

/-- C4: when the check reports no newer version the flow emits exactly
one informational log line, and when the check itself fails it emits
exactly one error log line; in both cases no dialog is shown and
neither download-and-install nor restart is invoked. -/
theorem check_none_or_error_is_silent (d : Bool) (i : InstallResult)
    (e : String) :
    check_for_updates .noUpdate d i = [Effect.logInfo "No updates available"] ∧
    check_for_updates (.checkError e) d i =
      [Effect.logError ("Failed to check for updates: " ++ e)] ∧
    (check_for_updates .noUpdate d i).countP Effect.isDialog = 0 ∧
    (check_for_updates (.checkError e) d i).countP Effect.isDialog = 0 ∧
    (check_for_updates .noUpdate d i).countP Effect.isDownload = 0 ∧
    (check_for_updates (.checkError e) d i).countP Effect.isDownload = 0 ∧
    (check_for_updates .noUpdate d i).countP Effect.isRestart = 0 ∧
    (check_for_updates (.checkError e) d i).countP Effect.isRestart = 0 := by
  refine ⟨?_, ?_, ?_, ?_, ?_, ?_, ?_, ?_⟩ <;>
    simp [check_for_updates, List.countP_cons, Effect.isDialog,
      Effect.isDownload, Effect.isRestart]

/-- C9: when the reported update has no release-notes body, the
confirmation prompt is still shown (it heads the trace), its notes
portion is the empty string, and the whole run behaves exactly as if
the body had been the empty string (`unwrap_or_default`). -/
theorem missing_body_defaults_to_empty (v : String) (d : Bool)
    (i : InstallResult) :
    (check_for_updates (.found v none) d i).head? =
      some (Effect.promptDialog "Update Available" (promptMessage v "")
        "Update" "Later") ∧
    check_for_updates (.found v none) d i =
      check_for_updates (.found v (some "")) d i := by
  constructor
  · cases d <;> simp [check_for_updates]
  · rfl

/-! ## Theorems about command resolution -/

/-- C5: for every resource root whose `server` subdirectory exists,
`start_server` selects production mode: the bundled `node-server`
sidecar, the entry-script path inside that subdirectory as first
argument, then exactly `ui --foreground --port 3333`, and `NODE_PATH`
set to the `node_modules` directory inside that subdirectory. -/
theorem production_mode_command (fs : String → Bool) (root : String)
    (h : fs (pathJoin root "server") = true) :
    start_server fs root =
      { exe := .sidecar "node-server",
        args := [pathJoin (pathJoin root "server") "cli.js", "ui",
                 "--foreground", "--port", "3333"],
        env := [("NODE_PATH",
                 pathJoin (pathJoin root "server") "node_modules")] } := by
  simp [start_server, start_production_server, h]

/-- Witness for C5 at a concrete filesystem containing `root/server`. -/
theorem production_mode_command_witness :
    (fun s => s == "root/server") (pathJoin "root" "server") = true ∧
    start_server (fun s => s == "root/server") "root" =
      { exe := .sidecar "node-server",
        args := [pathJoin (pathJoin "root" "server") "cli.js", "ui",
                 "--foreground", "--port", "3333"],
        env := [("NODE_PATH",
                 pathJoin (pathJoin "root" "server") "node_modules")] } :=
  ⟨by decide, production_mode_command _ _ (by decide)⟩

/-- C6: for every resource root lacking a `server` subdirectory,
development mode is selected with the system `node` executable; the
entry script is the first of `../cli.js`, `../../cli.js`, `cli.js`
that exists, and `../cli.js` when none exists. Resolution is a total
function, so no error can be raised at resolution time. -/
theorem development_mode_command (fs : String → Bool) (root : String)
    (h : fs (pathJoin root "server") = false) :
    (start_server fs root).exe = .system "node" ∧
    (start_server fs root).args =
      [find_dev_cli_path fs, "ui", "--foreground", "--port", "3333"] ∧
    (if fs "../cli.js" then find_dev_cli_path fs = "../cli.js"
     else if fs "../../cli.js" then find_dev_cli_path fs = "../../cli.js"
     else if fs "cli.js" then find_dev_cli_path fs = "cli.js"
     else find_dev_cli_path fs = "../cli.js") := by
  refine ⟨?_, ?_, ?_⟩
  · simp [start_server, h, start_development_server]
  · simp [start_server, h, start_development_server]
  · cases h1 : fs "../cli.js" <;> cases h2 : fs "../../cli.js" <;>
      cases h3 : fs "cli.js" <;>
      simp [find_dev_cli_path, List.find?, h1, h2, h3]

/-- Witness for C6 at the empty filesystem: development mode with the
default `../cli.js`. -/
theorem development_mode_command_witness :
    (fun _ : String => false) (pathJoin "r" "server") = false ∧
    (start_server (fun _ => false) "r").exe = Executable.system "node" ∧
    find_dev_cli_path (fun _ => false) = "../cli.js" := by
  refine ⟨rfl, (development_mode_command (fun _ => false) "r" rfl).1, ?_⟩
  have h := (development_mode_command (fun _ => false) "r" rfl).2.2
  simpa using h

/-- C10: mode resolution depends only on the `server` subdirectory,
never on the entry script: when `server` exists but its `cli.js` does
not, production mode is still selected and the command's first
argument is that nonexistent script path, so the failure can only
surface at or after spawn. -/
theorem production_mode_ignores_script (fs : String → Bool) (root : String)
    (hs : fs (pathJoin root "server") = true)
    (hc : fs (pathJoin (pathJoin root "server") "cli.js") = false) :
    (start_server fs root).exe = Executable.sidecar "node-server" ∧
    ∃ p, (start_server fs root).args.head? = some p ∧ fs p = false ∧
      p = pathJoin (pathJoin root "server") "cli.js" := by
  refine ⟨?_, pathJoin (pathJoin root "server") "cli.js", ?_, hc, rfl⟩ <;>
    simp [start_server, start_production_server, hs]

/-- Witness for C10 at a filesystem containing `r/server` but not
`r/server/cli.js`. -/
theorem production_mode_ignores_script_witness :
    (fun s => s == "r/server") (pathJoin "r" "server") = true ∧
    (fun s => s == "r/server")
      (pathJoin (pathJoin "r" "server") "cli.js") = false ∧
    ((start_server (fun s => s == "r/server") "r").exe =
        Executable.sidecar "node-server" ∧
      ∃ p, (start_server (fun s => s == "r/server") "r").args.head? = some p ∧
        (fun s => s == "r/server") p = false ∧
        p = pathJoin (pathJoin "r" "server") "cli.js") :=
  ⟨by decide, by decide,
    production_mode_ignores_script _ _ (by decide) (by decide)⟩

/-! ## Theorems about the event relay -/

/-- C7: for a child-process event sequence of one decodable stdout
line, one decodable stderr line, and a termination, the relay produces
exactly one informational line with the stdout content after the
`[server]` marker, one error line likewise, and one informational
termination line carrying the status — and nothing else. -/
theorem relay_three_events (b1 b2 : List Nat) (s1 s2 : String)
    (st : TerminatedPayload)
    (h1 : from_utf8 b1 = some s1) (h2 : from_utf8 b2 = some s2) :
    relay [.stdout b1, .stderr b2, .terminated st] =
      [LogLine.info ("[server] " ++ s1),
       LogLine.error ("[server] " ++ s2),
       LogLine.info ("[server] terminated with status: " ++
         formatStatus st)] := by
  simp [relay, handle_command_event, h1, h2]

/-- Witness for C7 on concrete bytes: stdout "hi", stderr "ok",
termination with exit code 0. -/
theorem relay_three_events_witness :
    from_utf8 [104, 105] = some "hi" ∧
    from_utf8 [111, 107] = some "ok" ∧
    relay [.stdout [104, 105], .stderr [111, 107],
           .terminated ⟨some 0, none⟩] =
      [LogLine.info "[server] hi", LogLine.error "[server] ok",
       LogLine.info
         "[server] terminated with status: TerminatedPayload \x7b code: Some(0), signal: None \x7d"] := by
  refine ⟨by decide, by decide, ?_⟩
  have h := relay_three_events [104, 105] [111, 107] "hi" "ok"
    ⟨some 0, none⟩ (by decide) (by decide)
  rw [h]
  decide

/-- C8: a stdout or stderr event whose byte payload is not valid UTF-8
produces no log output and propagates no error: the `Err` branch of
the decode is silently discarded. Processing is total by construction
(`handle_command_event` is a total function on all events). -/
theorem undecodable_line_dropped (b : List Nat) (h : from_utf8 b = none) :
    handle_command_event (.stdout b) = [] ∧
    handle_command_event (.stderr b) = [] := by
  constructor <;> simp [handle_command_event, h]

/-- Witness for C8 on the invalid byte sequence `[0xFF]`. -/
theorem undecodable_line_dropped_witness :
    from_utf8 [255] = none ∧
    (handle_command_event (.stdout [255]) = [] ∧
     handle_command_event (.stderr [255]) = []) :=
  ⟨by decide, undecodable_line_dropped [255] (by decide)⟩

end ClaudeConfig
